import Mathlib

/-!
# Verification of monthly_tenders_report.py

Shallow embedding of the report pipeline in `src/monthly_tenders_report.py`:
journal import into a row table with an autoincrementing `row_num`
(`import_jnl_to_sqlite`), the report SQL query (950/980/941 adjacency join,
GROUP BY (date, Type), ORDER BY (date, Type)), row assembly
(`generate_report_rows`), store-name resolution
(`read_store_name_from_strdbf`), per-partition processing and the main loop.
Amount parsing models SQLite `CAST(text AS REAL)` (longest numeric prefix,
otherwise 0); amounts are modelled as exact rationals.
-/

namespace MTR

/-- One record as read from jnl.dbf: the four fields the import extracts
(each passed through Python `str`, hence a `String`). -/
structure JnlRecord where
  LINE : String
  PRICE : String
  DATE : String
  DESCRIPT : String
deriving DecidableEq, Repr

/-- One row of the SQLite table `jnl_data`: the four text fields plus the
`row_num INTEGER PRIMARY KEY AUTOINCREMENT` column. -/
structure JnlRow where
  row_num : Nat
  LINE : String
  PRICE : String
  DATE : String
  DESCRIPT : String
deriving DecidableEq, Repr

/-- Build the table row with a given `row_num` from a dbf record. -/
def mkRow (num : Nat) (r : JnlRecord) : JnlRow :=
  ⟨num, r.LINE, r.PRICE, r.DATE, r.DESCRIPT⟩

/-- The insert loop of `import_jnl_to_sqlite`: records are inserted in read
order into a freshly created table, so AUTOINCREMENT assigns `k+1, k+2, ...`
where `k` is the number of rows already inserted (0 for the fresh table). -/
def importRowsFrom (k : Nat) : List JnlRecord → List JnlRow
  | [] => []
  | r :: rs => mkRow (k + 1) r :: importRowsFrom (k + 1) rs

/-- Outcome of locating and opening a dbf file: absent on disk, present but
raising on open/read, or successfully read records. -/
inductive DbfSource (α : Type) where
  | missing : DbfSource α
  | unreadable : DbfSource α
  | ok : α → DbfSource α
deriving DecidableEq

/-- `import_jnl_to_sqlite`: a missing file or an open error returns no rows
(the function returns count 0); otherwise every record is inserted in read
order into the fresh `jnl_data` table. -/
def import_jnl_to_sqlite : DbfSource (List JnlRecord) → List JnlRow
  | .missing => []
  | .unreadable => []
  | .ok records => importRowsFrom 0 records

/-! ## SQLite CAST(text AS REAL) -/

/-- Decimal digit test. -/
def isDig (c : Char) : Bool := decide ('0' ≤ c ∧ c ≤ '9')

/-- Value of a digit string, most significant first. -/
def digitsToNat (ds : List Char) : Nat :=
  ds.foldl (fun n c => 10 * n + (c.toNat - 48)) 0

/-- Exponent part after the `e`/`E`: optional sign then digits
(no digits means exponent 0, matching the longest-valid-prefix rule). -/
def expOf : List Char → Int
  | '-' :: ds => -(digitsToNat (ds.takeWhile isDig) : Int)
  | '+' :: ds => (digitsToNat (ds.takeWhile isDig) : Int)
  | ds => (digitsToNat (ds.takeWhile isDig) : Int)

/-- SQLite text-to-real conversion: skip leading spaces, optional sign,
integer digits, optional fractional digits, optional exponent; the value of
the longest valid numeric prefix, and `0` when no digits are found. -/
def castReal (s : String) : ℚ :=
  let cs := s.data.dropWhile fun c => c = ' '
  let sign : ℚ := match cs with
    | '-' :: _ => -1
    | _ => 1
  let cs1 := match cs with
    | '-' :: rest => rest
    | '+' :: rest => rest
    | _ => cs
  let ip := cs1.takeWhile isDig
  let cs2 := cs1.dropWhile isDig
  let fp := match cs2 with
    | '.' :: rest => rest.takeWhile isDig
    | _ => []
  let cs3 := match cs2 with
    | '.' :: rest => rest.dropWhile isDig
    | _ => cs2
  if ip.isEmpty && fp.isEmpty then 0
  else
    let mant : ℚ := (digitsToNat ip : ℚ) + (digitsToNat fp : ℚ) / ((10 : ℚ) ^ fp.length)
    let e : Int := match cs3 with
      | 'e' :: rest => expOf rest
      | 'E' :: rest => expOf rest
      | _ => 0
    sign * mant * (10 : ℚ) ^ e

/-- Whether the text has any numeric prefix at all: after spaces and an
optional sign, at least one digit in the integer or fractional part.
`false` is exactly the case SQLite CAST maps to 0. -/
def parsesAsNumber (s : String) : Bool :=
  let cs := s.data.dropWhile fun c => c = ' '
  let cs1 := match cs with
    | '-' :: rest => rest
    | '+' :: rest => rest
    | _ => cs
  let ip := cs1.takeWhile isDig
  let cs2 := cs1.dropWhile isDig
  let fp := match cs2 with
    | '.' :: rest => rest.takeWhile isDig
    | _ => []
  !(ip.isEmpty && fp.isEmpty)

/-! ## The report query -/

/-- One row of the `sales` CTE (and also of the aggregated SELECT):
`date`, the `Type` alias of `b.DESCRIPT`, `sale_amount`, `sale_count`. -/
structure SaleRow where
  date : String
  typeLabel : String
  sale_amount : ℚ
  sale_count : Nat
deriving DecidableEq, Repr

/-- The `sales` CTE: for each row `a` with `LINE = '950'`, inner-join the
row `b` at `row_num = a.row_num + 1` with `LINE = '980'` and the row `c` at
`row_num = a.row_num - 1` with `LINE = '941'`; emit
`(a.DATE, b.DESCRIPT, CAST(a.PRICE AS REAL) - CAST(c.PRICE AS REAL), 1)`. -/
def salesRows (jnl : List JnlRow) : List SaleRow :=
  jnl.flatMap fun a =>
    if a.LINE = "950" then
      (jnl.filter fun b => b.row_num == a.row_num + 1 && b.LINE == "980").flatMap fun b =>
        (jnl.filter fun c => (c.row_num : Int) == (a.row_num : Int) - 1 && c.LINE == "941").map
          fun c =>
            ⟨a.DATE, b.DESCRIPT, castReal a.PRICE - castReal c.PRICE, 1⟩
    else []

/-- Grouping key of a CTE row: `(date, Type)`. -/
def keyOf (s : SaleRow) : String × String := (s.date, s.typeLabel)

/-- The `ORDER BY date, Type` order on group keys: lexicographic. -/
def keyLE (k1 k2 : String × String) : Prop :=
  k1.1 < k2.1 ∨ (k1.1 = k2.1 ∧ k1.2 ≤ k2.2)

instance : DecidableRel keyLE := fun k1 k2 => by
  unfold keyLE; infer_instance

instance : IsTotal (String × String) keyLE := by
  constructor
  intro a b
  rcases lt_trichotomy a.1 b.1 with h | h | h
  · exact Or.inl (Or.inl h)
  · rcases le_total a.2 b.2 with h2 | h2
    · exact Or.inl (Or.inr ⟨h, h2⟩)
    · exact Or.inr (Or.inr ⟨h.symm, h2⟩)
  · exact Or.inr (Or.inl h)

instance : IsTrans (String × String) keyLE := by
  constructor
  intro a b c hab hbc
  rcases hab with h1 | ⟨h1, h1'⟩
  · rcases hbc with h2 | ⟨h2, _⟩
    · exact Or.inl (h1.trans h2)
    · exact Or.inl (h2 ▸ h1)
  · rcases hbc with h2 | ⟨h2, h2'⟩
    · exact Or.inl (h1 ▸ h2)
    · exact Or.inr ⟨h1.trans h2, h1'.trans h2'⟩

/-- `GROUP BY date, Type` with `SUM(sale_amount)`, `SUM(sale_count)` and
`ORDER BY date, Type`: one output row per distinct key, in ascending key
order, holding the per-group sums. -/
def aggregate (sales : List SaleRow) : List SaleRow :=
  (List.insertionSort keyLE (sales.map keyOf).dedup).map fun k =>
    ⟨k.1, k.2,
      ((sales.filter fun s => keyOf s == k).map SaleRow.sale_amount).sum,
      ((sales.filter fun s => keyOf s == k).map SaleRow.sale_count).sum⟩

/-- The full query of `generate_report_rows`. -/
def runQuery (jnl : List JnlRow) : List SaleRow :=
  aggregate (salesRows jnl)

/-- A CSV cell as produced by the Python code: a string, a REAL from the
query, or an integer count. -/
inductive Cell where
  | str : String → Cell
  | rat : ℚ → Cell
  | nat : Nat → Cell
deriving DecidableEq, Repr

/-- `generate_report_rows`: each fetched row `(date, Type, sale_amount,
sale_count)` becomes the list `[prefix, store_name, date, Type, sale_amount,
sale_count, "USD"]`. -/
def generate_report_rows (pfx store_name : String) (jnl : List JnlRow) : List (List Cell) :=
  (runQuery jnl).map fun r =>
    [Cell.str pfx, Cell.str store_name, Cell.str r.date, Cell.str r.typeLabel,
      Cell.rat r.sale_amount, Cell.nat r.sale_count, Cell.str "USD"]

/-- The header row written by `main`. -/
def csvHeader : List String :=
  ["Astoreid", "Storename", "date", "Type", "sale_amount", "sale_count", "currency"]

/-! ## Store name and partition processing -/

/-- One record of str.dbf as seen by the reader: `record.get("NAME", None)`,
`none` when the field is absent. -/
structure StrRecord where
  NAME : Option String
deriving DecidableEq, Repr

/-- `read_store_name_from_strdbf`: missing file, open/read error, no first
record, or a first record whose NAME is absent or falsy (empty) all yield
"UnknownStore"; a truthy NAME on the first record is returned. -/
def read_store_name_from_strdbf : DbfSource (List StrRecord) → String
  | .missing => "UnknownStore"
  | .unreadable => "UnknownStore"
  | .ok [] => "UnknownStore"
  | .ok (r :: _) =>
    match r.NAME with
    | some n => if n = "" then "UnknownStore" else n
    | none => "UnknownStore"

/-- The filesystem facts `process_prefix` observes for one partition:
whether a `data` folder was found, the jnl.dbf lookup result (`none` when
`find_case_insensitive` found no file), and likewise for str.dbf. -/
structure PrefixData where
  hasDataFolder : Bool
  jnl : Option (DbfSource (List JnlRecord))
  strSrc : Option (DbfSource (List StrRecord))

/-- The store-name expression of `process_prefix`:
`read_store_name_from_strdbf(str_path) if str_path else "UnknownStore"`. -/
def resolveStoreName : Option (DbfSource (List StrRecord)) → String
  | none => "UnknownStore"
  | some src => read_store_name_from_strdbf src

/-- `process_prefix`: skip (no rows) when the data folder or jnl.dbf is not
found or no rows import; otherwise resolve the store name (defaulting to
"UnknownStore" when str.dbf is not found) and run the report query. -/
def processPrefix (pfx : String) (d : PrefixData) : List (List Cell) :=
  if d.hasDataFolder then
    match d.jnl with
    | none => []
    | some jnlSrc =>
      let store_name := resolveStoreName d.strSrc
      let imported := import_jnl_to_sqlite jnlSrc
      if imported.length = 0 then []
      else generate_report_rows pfx store_name imported
  else []

/-- The accumulation loop of `main`: each partition's rows (possibly none)
are appended to the combined row list in partition order. -/
def mainRows (partitions : List (String × PrefixData)) : List (List Cell) :=
  partitions.flatMap fun pd => processPrefix pd.1 pd.2

/-! ## Position / row_num correspondence of the import -/

theorem importRowsFrom_getElem? (rs : List JnlRecord) (k j : Nat) :
    (importRowsFrom k rs)[j]? = (rs[j]?).map (mkRow (k + j + 1)) := by
  induction rs generalizing k j with
  | nil => simp [importRowsFrom]
  | cons r rs ih =>
    cases j with
    | zero => simp [importRowsFrom]
    | succ j =>
      have h : k + (j + 1) + 1 = (k + 1) + j + 1 := by omega
      simp only [importRowsFrom, List.getElem?_cons_succ, h, ih]

theorem mem_importRowsFrom {x : JnlRow} {k : Nat} {rs : List JnlRecord} :
    x ∈ importRowsFrom k rs ↔ ∃ j r, rs[j]? = some r ∧ x = mkRow (k + j + 1) r := by
  rw [List.mem_iff_getElem?]
  constructor
  · rintro ⟨j, hj⟩
    rw [importRowsFrom_getElem?] at hj
    rcases Option.map_eq_some'.mp hj with ⟨r, hr, hx⟩
    exact ⟨j, r, hr, hx.symm⟩
  · rintro ⟨j, r, hr, rfl⟩
    exact ⟨j, by rw [importRowsFrom_getElem?, hr]; rfl⟩

/-! ## Membership characterization of the sales CTE -/

theorem mem_salesRows {s : SaleRow} {jnl : List JnlRow} :
    s ∈ salesRows jnl ↔
      ∃ a ∈ jnl, a.LINE = "950" ∧
        ∃ b ∈ jnl, (b.row_num = a.row_num + 1 ∧ b.LINE = "980") ∧
          ∃ c ∈ jnl, ((c.row_num : Int) = (a.row_num : Int) - 1 ∧ c.LINE = "941") ∧
            s = ⟨a.DATE, b.DESCRIPT, castReal a.PRICE - castReal c.PRICE, 1⟩ := by
  simp only [salesRows, List.mem_flatMap]
  constructor
  · rintro ⟨a, ha, hs⟩
    by_cases h : a.LINE = "950"
    · rw [if_pos h] at hs
      rcases List.mem_flatMap.mp hs with ⟨b, hb, hs'⟩
      rcases List.mem_filter.mp hb with ⟨hbm, hbc⟩
      rcases List.mem_map.mp hs' with ⟨c, hc, hsc⟩
      rcases List.mem_filter.mp hc with ⟨hcm, hcc⟩
      simp only [Bool.and_eq_true, beq_iff_eq] at hbc hcc
      exact ⟨a, ha, h, b, hbm, hbc, c, hcm, hcc, hsc.symm⟩
    · rw [if_neg h] at hs
      simp at hs
  · rintro ⟨a, ha, h, b, hb, ⟨hb1, hb2⟩, c, hc, ⟨hc1, hc2⟩, rfl⟩
    refine ⟨a, ha, ?_⟩
    rw [if_pos h]
    refine List.mem_flatMap.mpr ⟨b, List.mem_filter.mpr ⟨hb, ?_⟩, ?_⟩
    · simp [hb1, hb2]
    refine List.mem_map.mpr ⟨c, List.mem_filter.mpr ⟨hc, ?_⟩, rfl⟩
    simp [hc1, hc2]

/-- Index-level characterization of the matches the query emits on an
imported journal: exactly the adjacent 941/950/980 triples. -/
theorem mem_salesRows_import {s : SaleRow} {records : List JnlRecord} :
    s ∈ salesRows (importRowsFrom 0 records) ↔
      ∃ i a b c, records[i]? = some a ∧ records[i + 1]? = some b ∧
        1 ≤ i ∧ records[i - 1]? = some c ∧
        a.LINE = "950" ∧ b.LINE = "980" ∧ c.LINE = "941" ∧
        s = ⟨a.DATE, b.DESCRIPT, castReal a.PRICE - castReal c.PRICE, 1⟩ := by
  rw [mem_salesRows]
  constructor
  · rintro ⟨a, ha, hA, b, hb, ⟨hb1, hb2⟩, c, hc, ⟨hc1, hc2⟩, rfl⟩
    rcases mem_importRowsFrom.mp ha with ⟨ia, ra, hra, rfl⟩
    rcases mem_importRowsFrom.mp hb with ⟨ib, rb, hrb, rfl⟩
    rcases mem_importRowsFrom.mp hc with ⟨ic, rc, hrc, rfl⟩
    simp only [mkRow] at hb1 hc1 hA hb2 hc2 ⊢
    have hib : ib = ia + 1 := by omega
    have hia : ia = ic + 1 := by omega
    refine ⟨ia, ra, rb, rc, hra, ?_, by omega, ?_, hA, hb2, hc2, rfl⟩
    · rw [← hib]; exact hrb
    · have : ia - 1 = ic := by omega
      rw [this]; exact hrc
  · rintro ⟨i, a, b, c, hia, hib, hi1, hic, hA, hB, hC, rfl⟩
    refine ⟨mkRow (0 + i + 1) a, mem_importRowsFrom.mpr ⟨i, a, hia, rfl⟩, hA, ?_⟩
    refine ⟨mkRow (0 + (i + 1) + 1) b, mem_importRowsFrom.mpr ⟨i + 1, b, hib, rfl⟩,
      ⟨by simp [mkRow], hB⟩, ?_⟩
    refine ⟨mkRow (0 + (i - 1) + 1) c, mem_importRowsFrom.mpr ⟨i - 1, c, hic, rfl⟩,
      ⟨by simp only [mkRow]; push_cast; omega, hC⟩, ?_⟩
    simp [mkRow]

/-- Every row of `importRowsFrom k rs` has `row_num` at least `k + 1`. -/
theorem row_num_lb {x : JnlRow} {k : Nat} {rs : List JnlRecord}
    (hx : x ∈ importRowsFrom k rs) : k + 1 ≤ x.row_num := by
  rcases mem_importRowsFrom.mp hx with ⟨j, r, _, rfl⟩
  simp [mkRow]

theorem pairwise_row_num (k : Nat) (rs : List JnlRecord) :
    List.Pairwise (fun x y => x.row_num < y.row_num) (importRowsFrom k rs) := by
  induction rs generalizing k with
  | nil => simp [importRowsFrom]
  | cons r rs ih =>
    refine List.pairwise_cons.mpr ⟨fun y hy => ?_, ih (k + 1)⟩
    have := row_num_lb hy
    simp only [mkRow]
    omega

/-! ## Claim theorems -/

/-- C1 counterexample: a journal whose entry 0 has line code "950" and entry 1
has line code "980", with no preceding "941" entry, emits no match at all —
refuting the claim that a candidate match is emitted with null adjustment
whenever a "950" is immediately followed by a "980". -/
theorem C1_counterexample :
    (([⟨"950", "10", "2024-01-05", "x"⟩,
       ⟨"980", "", "2024-01-05", "VISA"⟩] : List JnlRecord)[0]?).map JnlRecord.LINE
        = some "950" ∧
    (([⟨"950", "10", "2024-01-05", "x"⟩,
       ⟨"980", "", "2024-01-05", "VISA"⟩] : List JnlRecord)[1]?).map JnlRecord.LINE
        = some "980" ∧
    salesRows (import_jnl_to_sqlite (DbfSource.ok
      [⟨"950", "10", "2024-01-05", "x"⟩,
       ⟨"980", "", "2024-01-05", "VISA"⟩])) = [] := by
  refine ⟨rfl, rfl, rfl⟩

/-- C1 (amended): a candidate match is emitted at index `i` exactly under the
additional requirement that a "941" entry immediately precedes: whenever
`entry[i].LINE = "950"`, `entry[i+1].LINE = "980"`, `i ≥ 1` and
`entry[i-1].LINE = "941"`, the query emits the row with date `entry[i].DATE`,
type label `entry[i+1].DESCRIPT` and amount
`entry[i].amount - entry[i-1].amount`; the adjustment is always present. -/
theorem C1_match_emitted (records : List JnlRecord) (i : Nat) (a b c : JnlRecord)
    (hia : records[i]? = some a) (hib : records[i + 1]? = some b)
    (hi : 1 ≤ i) (hic : records[i - 1]? = some c)
    (hA : a.LINE = "950") (hB : b.LINE = "980") (hC : c.LINE = "941") :
    (⟨a.DATE, b.DESCRIPT, castReal a.PRICE - castReal c.PRICE, 1⟩ : SaleRow) ∈
      salesRows (import_jnl_to_sqlite (DbfSource.ok records)) :=
  mem_salesRows_import.mpr ⟨i, a, b, c, hia, hib, hi, hic, hA, hB, hC, rfl⟩

theorem C1_match_emitted_witness :
    (⟨"2024-01-05", "VISA", castReal "3" - castReal "5", 1⟩ : SaleRow) ∈
      salesRows (import_jnl_to_sqlite (DbfSource.ok
        [⟨"941", "5", "2024-01-05", ""⟩,
         ⟨"950", "3", "2024-01-05", ""⟩,
         ⟨"980", "", "2024-01-05", "VISA"⟩])) :=
  C1_match_emitted _ 1 ⟨"950", "3", "2024-01-05", ""⟩ ⟨"980", "", "2024-01-05", "VISA"⟩
    ⟨"941", "5", "2024-01-05", ""⟩ rfl rfl (by decide) rfl rfl rfl rfl

/-- C3: every emitted match has a valid preceding "941" entry, and its
effective amount equals the raw amount of the "950" entry minus the
adjustment amount of that "941" entry (the no-adjustment case never arises on
an emitted match, so the claim's second clause is vacuously satisfied). -/
theorem C3_effective_amount (records : List JnlRecord) (s : SaleRow)
    (hs : s ∈ salesRows (import_jnl_to_sqlite (DbfSource.ok records))) :
    ∃ i a c, records[i]? = some a ∧ 1 ≤ i ∧ records[i - 1]? = some c ∧
      a.LINE = "950" ∧ c.LINE = "941" ∧
      s.sale_amount = castReal a.PRICE - castReal c.PRICE := by
  rcases mem_salesRows_import.mp hs with ⟨i, a, b, c, hia, _, hi, hic, hA, _, hC, rfl⟩
  exact ⟨i, a, c, hia, hi, hic, hA, hC, rfl⟩

theorem C3_effective_amount_witness :
    ∃ i a c,
      (([⟨"941", "5", "2024-01-05", ""⟩,
         ⟨"950", "3", "2024-01-05", ""⟩,
         ⟨"980", "", "2024-01-05", "MC"⟩] : List JnlRecord)[i]?) = some a ∧ 1 ≤ i ∧
      (([⟨"941", "5", "2024-01-05", ""⟩,
         ⟨"950", "3", "2024-01-05", ""⟩,
         ⟨"980", "", "2024-01-05", "MC"⟩] : List JnlRecord)[i - 1]?) = some c ∧
      a.LINE = "950" ∧ c.LINE = "941" ∧
      (⟨"2024-01-05", "MC", castReal "3" - castReal "5", 1⟩ : SaleRow).sale_amount =
        castReal a.PRICE - castReal c.PRICE :=
  C3_effective_amount _ _
    (mem_salesRows_import.mpr ⟨1, ⟨"950", "3", "2024-01-05", ""⟩,
      ⟨"980", "", "2024-01-05", "MC"⟩, ⟨"941", "5", "2024-01-05", ""⟩,
      rfl, rfl, by decide, rfl, rfl, rfl, rfl, rfl⟩)

/-- C9: matching is single-step lookahead on physically adjacent records:
every emitted row arises from some index `i` whose entry has line code "950"
and whose immediate successor `i+1` has line code "980", carrying that pair's
date and description; hence a "950" not immediately followed by a "980"
never produces a match. -/
theorem C9_adjacent_only (records : List JnlRecord) (s : SaleRow)
    (hs : s ∈ salesRows (import_jnl_to_sqlite (DbfSource.ok records))) :
    ∃ i a b, records[i]? = some a ∧ records[i + 1]? = some b ∧
      a.LINE = "950" ∧ b.LINE = "980" ∧ s.date = a.DATE ∧ s.typeLabel = b.DESCRIPT := by
  rcases mem_salesRows_import.mp hs with ⟨i, a, b, c, hia, hib, _, _, hA, hB, _, rfl⟩
  exact ⟨i, a, b, hia, hib, hA, hB, rfl, rfl⟩

theorem C9_adjacent_only_witness :
    ∃ i a b,
      (([⟨"941", "5", "2024-01-05", ""⟩,
         ⟨"950", "3", "2024-01-05", ""⟩,
         ⟨"980", "", "2024-01-05", "AMEX"⟩] : List JnlRecord)[i]?) = some a ∧
      (([⟨"941", "5", "2024-01-05", ""⟩,
         ⟨"950", "3", "2024-01-05", ""⟩,
         ⟨"980", "", "2024-01-05", "AMEX"⟩] : List JnlRecord)[i + 1]?) = some b ∧
      a.LINE = "950" ∧ b.LINE = "980" ∧
      (⟨"2024-01-05", "AMEX", castReal "3" - castReal "5", 1⟩ : SaleRow).date = a.DATE ∧
      (⟨"2024-01-05", "AMEX", castReal "3" - castReal "5", 1⟩ : SaleRow).typeLabel =
        b.DESCRIPT :=
  C9_adjacent_only _ _
    (mem_salesRows_import.mpr ⟨1, ⟨"950", "3", "2024-01-05", ""⟩,
      ⟨"980", "", "2024-01-05", "AMEX"⟩, ⟨"941", "5", "2024-01-05", ""⟩,
      rfl, rfl, by decide, rfl, rfl, rfl, rfl, rfl⟩)

/-- C10: the stored sequence position is exactly the physical read order:
the imported row at position `j` is the `j`-th source record with
`row_num = j + 1`, so `row_num` is strictly increasing along the table and
`row_num ± 1` joins address the physically adjacent records. -/
theorem C10_physical_order (records : List JnlRecord) :
    (∀ j, (import_jnl_to_sqlite (DbfSource.ok records))[j]? =
      (records[j]?).map (mkRow (j + 1))) ∧
    List.Pairwise (fun x y => x.row_num < y.row_num)
      (import_jnl_to_sqlite (DbfSource.ok records)) := by
  constructor
  · intro j
    have h := importRowsFrom_getElem? records 0 j
    simpa using h
  · exact pairwise_row_num 0 records

/-! ## Aggregation lemmas -/

theorem map_keyOf_aggregate (sales : List SaleRow) :
    (aggregate sales).map keyOf =
      List.insertionSort keyLE (sales.map keyOf).dedup := by
  unfold aggregate
  rw [List.map_map]
  have h : ∀ k ∈ List.insertionSort keyLE (sales.map keyOf).dedup,
      (keyOf ∘ fun k : String × String =>
        (⟨k.1, k.2,
          ((sales.filter fun s => keyOf s == k).map SaleRow.sale_amount).sum,
          ((sales.filter fun s => keyOf s == k).map SaleRow.sale_count).sum⟩ : SaleRow)) k
        = id k := fun k _ => rfl
  rw [List.map_congr_left h, List.map_id]

theorem aggregate_sums {sales : List SaleRow} {r : SaleRow} (hr : r ∈ aggregate sales) :
    r.sale_amount = ((sales.filter fun s => keyOf s == keyOf r).map SaleRow.sale_amount).sum ∧
    r.sale_count = ((sales.filter fun s => keyOf s == keyOf r).map SaleRow.sale_count).sum := by
  rcases List.mem_map.mp hr with ⟨k, _, rfl⟩
  constructor <;> simp [keyOf]

/-- Every row of the sales CTE carries `sale_count = 1` (the literal `1 AS
sale_count` of the query). -/
theorem sale_count_one {jnl : List JnlRow} {s : SaleRow} (hs : s ∈ salesRows jnl) :
    s.sale_count = 1 := by
  rcases mem_salesRows.mp hs with ⟨a, _, _, b, _, _, c, _, _, rfl⟩
  rfl

/-! ## C4 and C2 -/

/-- C4: the query groups CTE rows by `(date, Type)`: the output has one row
per distinct key occurring among the transactions (no more, no fewer),
sorted ascending by `(date, Type)`, each holding the sums of the group's
amounts and counts; on the two matched pairs with amounts 12 and 8 on one
key the output is a single bucket with amount 20 and count 2. -/
theorem C4_grouping (sales : List SaleRow) :
    List.Sorted keyLE ((aggregate sales).map keyOf) ∧
    ((aggregate sales).map keyOf).Nodup ∧
    (∀ k, k ∈ (aggregate sales).map keyOf ↔ k ∈ sales.map keyOf) ∧
    (∀ r ∈ aggregate sales,
      r.sale_amount =
        ((sales.filter fun s => keyOf s == keyOf r).map SaleRow.sale_amount).sum ∧
      r.sale_count =
        ((sales.filter fun s => keyOf s == keyOf r).map SaleRow.sale_count).sum) ∧
    aggregate [⟨"2024-01-05", "Visa", 12, 1⟩, ⟨"2024-01-05", "Visa", 8, 1⟩] =
      [⟨"2024-01-05", "Visa", 20, 2⟩] := by
  refine ⟨?_, ?_, ?_, fun r hr => aggregate_sums hr, by with_unfolding_all decide⟩
  · rw [map_keyOf_aggregate]
    exact List.sorted_insertionSort keyLE _
  · rw [map_keyOf_aggregate]
    exact ((List.perm_insertionSort keyLE _).nodup_iff).mpr (List.nodup_dedup _)
  · intro k
    rw [map_keyOf_aggregate, (List.perm_insertionSort keyLE _).mem_iff, List.mem_dedup]

theorem C4_grouping_witness :
    (⟨"2024-01-05", "Visa", 20, 2⟩ : SaleRow).sale_amount =
      ((([⟨"2024-01-05", "Visa", 12, 1⟩, ⟨"2024-01-05", "Visa", 8, 1⟩] :
          List SaleRow).filter fun s =>
            keyOf s == keyOf (⟨"2024-01-05", "Visa", 20, 2⟩ : SaleRow)).map
        SaleRow.sale_amount).sum ∧
    (⟨"2024-01-05", "Visa", 20, 2⟩ : SaleRow).sale_count =
      ((([⟨"2024-01-05", "Visa", 12, 1⟩, ⟨"2024-01-05", "Visa", 8, 1⟩] :
          List SaleRow).filter fun s =>
            keyOf s == keyOf (⟨"2024-01-05", "Visa", 20, 2⟩ : SaleRow)).map
        SaleRow.sale_count).sum :=
  (C4_grouping [⟨"2024-01-05", "Visa", 12, 1⟩, ⟨"2024-01-05", "Visa", 8, 1⟩]).2.2.2.1
    ⟨"2024-01-05", "Visa", 20, 2⟩ (by with_unfolding_all decide)

/-- C2 counterexample: for the journal 941(amount 5), 950(amount 3), 980
("VISA"), the effective amount is -2 < 0, yet the query output books it as a
sale: `sale_amount = -2` and `sale_count = 1` — not as a reversal with the
sale totals unchanged, as the claim requires (the schema has no reversal
columns at all). -/
theorem C2_counterexample :
    runQuery (import_jnl_to_sqlite (DbfSource.ok
      [⟨"941", "5", "2024-01-05", ""⟩, ⟨"950", "3", "2024-01-05", ""⟩,
       ⟨"980", "", "2024-01-05", "VISA"⟩])) =
      [⟨"2024-01-05", "VISA", -2, 1⟩] ∧
    castReal "3" - castReal "5" < 0 := by
  constructor
  · with_unfolding_all decide
  · with_unfolding_all decide

/-- C2 (amended): there is no sign-based classification: every match
contributes its signed effective amount to its bucket's `sale_amount` and
exactly 1 to `sale_count`, negative amounts included, and the report schema
has no reversal columns. -/
theorem C2_no_reversal_split (records : List JnlRecord) (r : SaleRow)
    (hr : r ∈ runQuery (import_jnl_to_sqlite (DbfSource.ok records))) :
    r.sale_amount =
      (((salesRows (import_jnl_to_sqlite (DbfSource.ok records))).filter
        fun s => keyOf s == keyOf r).map SaleRow.sale_amount).sum ∧
    r.sale_count =
      (((salesRows (import_jnl_to_sqlite (DbfSource.ok records))).filter
        fun s => keyOf s == keyOf r).length) ∧
    "reversal_amount" ∉ csvHeader ∧ "reversal_count" ∉ csvHeader := by
  rcases aggregate_sums hr with ⟨ha, hc⟩
  refine ⟨ha, ?_, by decide, by decide⟩
  rw [hc]
  have hone : ∀ s ∈ (salesRows (import_jnl_to_sqlite (DbfSource.ok records))).filter
      (fun s => keyOf s == keyOf r), SaleRow.sale_count s = 1 := by
    intro s hs
    exact sale_count_one (List.mem_filter.mp hs).1
  rw [List.map_congr_left hone, List.map_const', List.sum_const_nat, Nat.mul_one]

theorem C2_no_reversal_split_witness :
    (⟨"2024-01-05", "VISA", -2, 1⟩ : SaleRow).sale_amount =
      (((salesRows (import_jnl_to_sqlite (DbfSource.ok
        [⟨"941", "5", "2024-01-05", ""⟩, ⟨"950", "3", "2024-01-05", ""⟩,
         ⟨"980", "", "2024-01-05", "VISA"⟩]))).filter
        fun s => keyOf s == keyOf (⟨"2024-01-05", "VISA", -2, 1⟩ : SaleRow)).map
          SaleRow.sale_amount).sum ∧
    (⟨"2024-01-05", "VISA", -2, 1⟩ : SaleRow).sale_count =
      (((salesRows (import_jnl_to_sqlite (DbfSource.ok
        [⟨"941", "5", "2024-01-05", ""⟩, ⟨"950", "3", "2024-01-05", ""⟩,
         ⟨"980", "", "2024-01-05", "VISA"⟩]))).filter
        fun s => keyOf s == keyOf (⟨"2024-01-05", "VISA", -2, 1⟩ : SaleRow)).length) ∧
    "reversal_amount" ∉ csvHeader ∧ "reversal_count" ∉ csvHeader :=
  C2_no_reversal_split _ ⟨"2024-01-05", "VISA", -2, 1⟩ (by with_unfolding_all decide)

/-! ## C5 -/

/-- C5 counterexample: the emitted report row for a matched journal has 7
columns (Astoreid, Storename, date, Type, sale_amount, sale_count,
currency), not the 12-column order the claim states. -/
theorem C5_counterexample :
    (generate_report_rows "6045" "StoreA" (import_jnl_to_sqlite (DbfSource.ok
      [⟨"941", "5", "2024-01-05", ""⟩, ⟨"950", "3", "2024-01-05", ""⟩,
       ⟨"980", "", "2024-01-05", "VISA"⟩]))).map List.length = [7] ∧
    ¬ ((generate_report_rows "6045" "StoreA" (import_jnl_to_sqlite (DbfSource.ok
      [⟨"941", "5", "2024-01-05", ""⟩, ⟨"950", "3", "2024-01-05", ""⟩,
       ⟨"980", "", "2024-01-05", "VISA"⟩]))).map List.length = [12]) := by
  constructor
  · with_unfolding_all decide
  · with_unfolding_all decide

/-- C5 (amended): every emitted report row follows the fixed 7-column order
Astoreid (partition id), Storename, date, Type, sale_amount, sale_count,
currency — matching the written header — and its currency column is the
constant "USD". -/
theorem C5_row_shape (pfx store : String) (records : List JnlRecord) (row : List Cell)
    (hrow : row ∈ generate_report_rows pfx store (import_jnl_to_sqlite (DbfSource.ok records))) :
    (∃ d t amt cnt, row = [Cell.str pfx, Cell.str store, Cell.str d, Cell.str t,
      Cell.rat amt, Cell.nat cnt, Cell.str "USD"]) ∧
    row.length = csvHeader.length ∧ row.getLast? = some (Cell.str "USD") := by
  rcases List.mem_map.mp hrow with ⟨r, _, rfl⟩
  exact ⟨⟨r.date, r.typeLabel, r.sale_amount, r.sale_count, rfl⟩, rfl, rfl⟩

theorem C5_row_shape_witness :
    (∃ d t amt cnt,
      ([Cell.str "6045", Cell.str "StoreA", Cell.str "2024-01-05", Cell.str "VISA",
        Cell.rat (-2), Cell.nat 1, Cell.str "USD"] : List Cell) =
        [Cell.str "6045", Cell.str "StoreA", Cell.str d, Cell.str t,
          Cell.rat amt, Cell.nat cnt, Cell.str "USD"]) ∧
    ([Cell.str "6045", Cell.str "StoreA", Cell.str "2024-01-05", Cell.str "VISA",
      Cell.rat (-2), Cell.nat 1, Cell.str "USD"] : List Cell).length = csvHeader.length ∧
    ([Cell.str "6045", Cell.str "StoreA", Cell.str "2024-01-05", Cell.str "VISA",
      Cell.rat (-2), Cell.nat 1, Cell.str "USD"] : List Cell).getLast? =
        some (Cell.str "USD") :=
  C5_row_shape "6045" "StoreA"
    [⟨"941", "5", "2024-01-05", ""⟩, ⟨"950", "3", "2024-01-05", ""⟩,
     ⟨"980", "", "2024-01-05", "VISA"⟩] _ (by with_unfolding_all decide)

/-! ## C6 -/

/-- Replace the PRICE field of a journal record, keeping the others. -/
def setPRICE (g : String → String) (r : JnlRecord) : JnlRecord :=
  ⟨r.LINE, g r.PRICE, r.DATE, r.DESCRIPT⟩

/-- Replace the PRICE column of an imported row, keeping the others. -/
def rowSetPRICE (g : String → String) (x : JnlRow) : JnlRow :=
  ⟨x.row_num, x.LINE, g x.PRICE, x.DATE, x.DESCRIPT⟩

theorem importRowsFrom_setPRICE (g : String → String) (k : Nat) (rs : List JnlRecord) :
    importRowsFrom k (rs.map (setPRICE g)) = (importRowsFrom k rs).map (rowSetPRICE g) := by
  induction rs generalizing k with
  | nil => rfl
  | cons r rs ih => simp [importRowsFrom, ih, mkRow, setPRICE, rowSetPRICE]

/-- The emitted matches, up to their amounts, do not depend on the PRICE
column: rewriting every PRICE leaves the (date, Type) stream of the sales
CTE unchanged. -/
theorem salesRows_keys_setPRICE (g : String → String) (jnl : List JnlRow) :
    (salesRows (jnl.map (rowSetPRICE g))).map keyOf = (salesRows jnl).map keyOf := by
  unfold salesRows
  simp only [List.map_flatMap, List.flatMap_map, apply_ite (List.map keyOf), List.map_nil,
    List.filter_map, List.map_map, rowSetPRICE, keyOf, Function.comp_def]

/-- C6: an unparsable amount is treated as 0 (the SQLite CAST yields 0 when
the text has no numeric prefix), and the PRICE column never influences which
matches are emitted — only the amounts computed from them. -/
theorem C6_malformed_amount :
    (∀ s : String, parsesAsNumber s = false → castReal s = 0) ∧
    (∀ (records : List JnlRecord) (g : String → String),
      (salesRows (import_jnl_to_sqlite (DbfSource.ok (records.map (setPRICE g))))).map keyOf =
        (salesRows (import_jnl_to_sqlite (DbfSource.ok records))).map keyOf) := by
  constructor
  · intro s h
    simp only [parsesAsNumber, Bool.not_eq_false'] at h
    simp [castReal, h]
  · intro records g
    show (salesRows (importRowsFrom 0 (records.map (setPRICE g)))).map keyOf = _
    rw [importRowsFrom_setPRICE, salesRows_keys_setPRICE]
    rfl

theorem C6_malformed_amount_witness : castReal "None" = 0 :=
  C6_malformed_amount.1 "None" (by decide)

/-! ## C7 -/

/-- The failure modes of store-name resolution: str.dbf not found in the
data folder, file missing, read error, no first record, or a first record
whose NAME is absent or empty. -/
def badStore : Option (DbfSource (List StrRecord)) → Bool
  | none => true
  | some DbfSource.missing => true
  | some DbfSource.unreadable => true
  | some (DbfSource.ok []) => true
  | some (DbfSource.ok (r :: _)) =>
    match r.NAME with
    | none => true
    | some n => n == ""

/-- C7: when the store-info source is missing, unreadable, or its first
record lacks a non-empty NAME, the resolved store name is "UnknownStore" and
the partition's rows are still produced, with that placeholder as the store
name. -/
theorem C7_store_default (pfx : String) (jnlRecs : List JnlRecord)
    (strOpt : Option (DbfSource (List StrRecord))) (h : badStore strOpt = true) :
    resolveStoreName strOpt = "UnknownStore" ∧
    processPrefix pfx ⟨true, some (DbfSource.ok jnlRecs), strOpt⟩ =
      generate_report_rows pfx "UnknownStore"
        (import_jnl_to_sqlite (DbfSource.ok jnlRecs)) := by
  have hname : resolveStoreName strOpt = "UnknownStore" := by
    rcases strOpt with _ | src
    · rfl
    rcases src with _ | _ | recs
    · rfl
    · rfl
    rcases recs with _ | ⟨⟨name⟩, rest⟩
    · rfl
    rcases name with _ | n
    · rfl
    · have hn : n = "" := by simpa [badStore] using h
      simp [resolveStoreName, read_store_name_from_strdbf, hn]
  refine ⟨hname, ?_⟩
  unfold processPrefix
  simp only [if_true, hname]
  by_cases h0 : (import_jnl_to_sqlite (DbfSource.ok jnlRecs)).length = 0
  · rw [if_pos h0]
    have : import_jnl_to_sqlite (DbfSource.ok jnlRecs) = [] := List.length_eq_zero.mp h0
    rw [this]
    rfl
  · rw [if_neg h0]

theorem C7_store_default_witness :
    resolveStoreName (some (DbfSource.ok [⟨some ""⟩])) = "UnknownStore" ∧
    processPrefix "6045" ⟨true, some (DbfSource.ok
        [⟨"941", "5", "2024-01-05", ""⟩, ⟨"950", "3", "2024-01-05", ""⟩,
         ⟨"980", "", "2024-01-05", "VISA"⟩]),
        some (DbfSource.ok [⟨some ""⟩])⟩ =
      generate_report_rows "6045" "UnknownStore"
        (import_jnl_to_sqlite (DbfSource.ok
          [⟨"941", "5", "2024-01-05", ""⟩, ⟨"950", "3", "2024-01-05", ""⟩,
           ⟨"980", "", "2024-01-05", "VISA"⟩])) :=
  C7_store_default "6045" _ _ (by decide)

/-! ## C8 -/

/-- C8: a partition whose data folder or jnl.dbf is missing or unreadable
contributes no rows, and removing it from the run leaves every other
partition's contribution unchanged: the run continues. -/
theorem C8_missing_journal (ps qs : List (String × PrefixData)) (pfx : String)
    (d : PrefixData)
    (h : d.hasDataFolder = false ∨ d.jnl = none ∨ d.jnl = some DbfSource.missing ∨
      d.jnl = some DbfSource.unreadable) :
    processPrefix pfx d = [] ∧
    mainRows (ps ++ (pfx, d) :: qs) = mainRows ps ++ mainRows qs := by
  have hp : processPrefix pfx d = [] := by
    unfold processPrefix
    rcases h with h | h | h | h
    · rw [h]
      simp
    · rw [h]
      simp
    · rw [h]
      simp [import_jnl_to_sqlite]
    · rw [h]
      simp [import_jnl_to_sqlite]
  refine ⟨hp, ?_⟩
  simp [mainRows, List.flatMap_append, hp]

theorem C8_missing_journal_witness :
    processPrefix "7001" ⟨true, some DbfSource.missing, none⟩ = [] ∧
    mainRows ([("6045", ⟨true, some (DbfSource.ok
        [⟨"941", "5", "2024-01-05", ""⟩, ⟨"950", "3", "2024-01-05", ""⟩,
         ⟨"980", "", "2024-01-05", "VISA"⟩]), none⟩)] ++
        ("7001", ⟨true, some DbfSource.missing, none⟩) :: []) =
      mainRows [("6045", ⟨true, some (DbfSource.ok
        [⟨"941", "5", "2024-01-05", ""⟩, ⟨"950", "3", "2024-01-05", ""⟩,
         ⟨"980", "", "2024-01-05", "VISA"⟩]), none⟩)] ++ mainRows [] :=
  C8_missing_journal _ [] "7001" ⟨true, some DbfSource.missing, none⟩
    (Or.inr (Or.inr (Or.inl rfl)))

end MTR
